import Mathlib

/-!
Verification of the publish-side client of the millicast-sdk-js repository.

The single source file under verification is
`packages/millicast-sdk-js/src/MillicastPublish.js`: a `MillicastPublish`
class with a constructor and the methods `broadcast`, `stop` and `isActive`.
The two collaborators, `MillicastWebRTC` and `MillicastSignaling`, are
external black boxes whose code is not part of this excerpt; following the
source, which only calls them, they are embedded as oracle functions in an
environment `Env`, and every call the publisher makes to them is recorded
in a trace of `Event`s.  JavaScript truthiness on the relevant values is
embedded explicitly: an optional string (`Option String`, with `none` for
undefined or null, `some ""` falsy), an optional object (`Option _`) and an
optional number (`Option Int`, where an absent number compares false
against 0 as `undefined > 0` does).
-/

namespace Millicast

/-- Opaque handle for a browser MediaStream (or track array); the publisher
only tests its presence and passes it through, so a tag suffices. -/
structure MediaStream where
  id : String
deriving Repr, DecidableEq

/-- The `publisherData` object: connection paths plus a JWT, as used by
`broadcast` (`options.publisherData.urls[0]`, `options.publisherData.jwt`). -/
structure PublisherData where
  urls : List String
  jwt : String
deriving Repr, DecidableEq

/-- Handle for the `MillicastWebRTC` collaborator created in the
constructor; its observable behaviour lives in `Env`, so the handle itself
carries no data. -/
structure MillicastWebRTC where
deriving Repr, DecidableEq

/-- The `MillicastSignaling` collaborator, as constructed in `broadcast`
with a stream name and a url (`new MillicastSignaling(\x7bstreamName, url\x7d)`). -/
structure MillicastSignaling where
  streamName : String
  url : String
deriving Repr, DecidableEq

/-- The fields of a `MillicastPublish` instance assigned by the
constructor: `streamName`, `millicastSignaling` and `webRTCPeer`. -/
structure Publisher where
  streamName : String
  millicastSignaling : Option MillicastSignaling
  webRTCPeer : MillicastWebRTC
deriving Repr, DecidableEq

/-- The argument object of `broadcast`.  Fields the source merely passes
through (`codec`, `simulcast`, `scalabilityMode`) are kept opaque. -/
structure BroadcastOptions where
  publisherData : Option PublisherData
  mediaStream : Option MediaStream
  bandwidth : Option Int
  disableVideo : Bool
  disableAudio : Bool
  codec : String
  simulcast : Bool
  scalabilityMode : Option String
deriving Repr, DecidableEq

/-- Oracle behaviour of the two collaborators, whose implementations are
outside this excerpt: the peer status returned by
`webRTCPeer.getRTCPeerStatus()` (`none` for an absent or not-established
peer), the local offer produced by `getRTCLocalSDP` from its argument
object, the answer returned by `millicastSignaling.publish`, and the text
rewrite `updateBandwidthRestriction`. -/
structure Env where
  rtcPeerStatus : Option String
  localSDP : MediaStream → Bool → String → Option String → String
  signalingAnswer : String → String → String
  updateBandwidthRestriction : String → Int → String

/-- One observable call from `MillicastPublish` into a collaborator, in the
order the source makes them. -/
inductive Event where
  | newSignaling (streamName : String) (url : String)
  | getRTCPeer
  | reemit
  | setRTCOfferOptions (offerToReceiveVideo : Bool) (offerToReceiveAudio : Bool)
  | getRTCLocalSDP (mediaStream : MediaStream) (simulcast : Bool)
      (codec : String) (scalabilityMode : Option String)
  | signalingPublish (sdp : String) (codec : String)
  | updateBandwidthRestriction (sdp : String) (bandwidth : Int)
  | setRTCRemoteSDP (sdp : String)
  | closeRTCPeer
  | signalingClose
deriving Repr, DecidableEq

/-- The kind of step an event is, forgetting its data. -/
def Event.stepName : Event → String
  | .newSignaling _ _ => "newSignaling"
  | .getRTCPeer => "getRTCPeer"
  | .reemit => "reemit"
  | .setRTCOfferOptions _ _ => "setRTCOfferOptions"
  | .getRTCLocalSDP _ _ _ _ => "getRTCLocalSDP"
  | .signalingPublish _ _ => "signalingPublish"
  | .updateBandwidthRestriction _ _ => "updateBandwidthRestriction"
  | .setRTCRemoteSDP _ => "setRTCRemoteSDP"
  | .closeRTCPeer => "closeRTCPeer"
  | .signalingClose => "signalingClose"

/-- JavaScript truthiness of an optional string: undefined, null and the
empty string are falsy (`if (!streamName)` in the constructor). -/
def jsTruthyStr : Option String → Bool
  | none => false
  | some s => s ≠ ""

/-- JavaScript `options.bandwidth > 0` where bandwidth may be absent:
`undefined > 0` evaluates to false. -/
def jsGtZero : Option Int → Bool
  | none => false
  | some b => 0 < b

/-- JavaScript `urls[0]` interpolated into a template string: the first
element, or the text "undefined" when the array is empty. -/
def jsHead : List String → String
  | [] => "undefined"
  | u :: _ => u

/-- The `MillicastPublish` constructor: rejects a falsy stream name with
the error message the source throws, otherwise sets `webRTCPeer` to a new
`MillicastWebRTC`, `millicastSignaling` to null and `streamName` to the
argument. -/
def newMillicastPublish (streamName : Option String) : Except String Publisher :=
  if jsTruthyStr streamName then
    .ok { streamName := streamName.getD ""
          millicastSignaling := none
          webRTCPeer := {} }
  else
    .error "Stream Name is required to construct a publisher."

/-- `isActive()`: polls `webRTCPeer.getRTCPeerStatus()` and compares it
with strict equality against the string "connected".  The source method
only reads, so the embedding is a pure function of the environment. -/
def isActive (env : Env) (_pub : Publisher) : Bool :=
  env.rtcPeerStatus == some "connected"

/-- `broadcast(options)`: validates `publisherData`, then `mediaStream`,
then rejects when a broadcast is active; otherwise builds the signaling
url from `urls[0]` and the jwt, stores a new `MillicastSignaling`, obtains
the peer, re-emits its events, sets the offer options, gets the local
offer, publishes it to signaling for an answer, optionally rewrites the
bandwidth line of the answer, and hands the result to `setRTCRemoteSDP`.
Returns the thrown message or unit, the updated publisher, and the trace
of collaborator calls. -/
def broadcast (env : Env) (pub : Publisher) (options : BroadcastOptions) :
    Except String Unit × Publisher × List Event :=
  match options.publisherData with
  | none => (.error "Publisher data required", pub, [])
  | some pd =>
    match options.mediaStream with
    | none => (.error "MediaStream required", pub, [])
    | some ms =>
      if isActive env pub then
        (.error "Broadcast currently working", pub, [])
      else
        let url := jsHead pd.urls ++ "?token=" ++ pd.jwt
        let pub1 := { pub with
          millicastSignaling := some { streamName := pub.streamName, url := url } }
        let localSdp := env.localSDP ms options.simulcast options.codec options.scalabilityMode
        let answer := env.signalingAnswer localSdp options.codec
        let restrict := !options.disableVideo && jsGtZero options.bandwidth
        let bw := options.bandwidth.getD 0
        let remoteSdp := if restrict then env.updateBandwidthRestriction answer bw else answer
        (.ok (), pub1,
          [Event.newSignaling pub.streamName url,
           Event.getRTCPeer,
           Event.reemit,
           Event.setRTCOfferOptions (!options.disableVideo) (!options.disableAudio),
           Event.getRTCLocalSDP ms options.simulcast options.codec options.scalabilityMode,
           Event.signalingPublish localSdp options.codec]
          ++ (if restrict then [Event.updateBandwidthRestriction answer bw] else [])
          ++ [Event.setRTCRemoteSDP remoteSdp])

/-- `stop()`: closes the peer, closes the signaling collaborator through
the optional-chaining guard `millicastSignaling?.close()` only when one
exists, and nulls the `millicastSignaling` field.  The method is total:
no path throws. -/
def stop (pub : Publisher) : Publisher × List Event :=
  ({ pub with millicastSignaling := none },
    Event.closeRTCPeer ::
      (match pub.millicastSignaling with
       | some _ => [Event.signalingClose]
       | none => []))

/-- A sample environment whose peer reports the connected status. -/
def envConnected : Env :=
  { rtcPeerStatus := some "connected"
    localSDP := fun ms simulcast codec _ => "offer:" ++ ms.id ++ ":" ++ codec ++ toString simulcast
    signalingAnswer := fun sdp codec => "answer:" ++ sdp ++ ":" ++ codec
    updateBandwidthRestriction := fun sdp b => sdp ++ ";b=AS:" ++ toString b }

/-- A sample environment whose peer has no established connection. -/
def envIdle : Env :=
  { rtcPeerStatus := none
    localSDP := fun ms simulcast codec _ => "offer:" ++ ms.id ++ ":" ++ codec ++ toString simulcast
    signalingAnswer := fun sdp codec => "answer:" ++ sdp ++ ":" ++ codec
    updateBandwidthRestriction := fun sdp b => sdp ++ ";b=AS:" ++ toString b }

/-- A sample publisher with no signaling connection. -/
def pubSample : Publisher :=
  { streamName := "myStream", millicastSignaling := none, webRTCPeer := {} }

/-- A sample publisher holding a signaling connection. -/
def pubWithSignaling : Publisher :=
  { streamName := "myStream"
    millicastSignaling := some { streamName := "myStream", url := "wss://dir?token=jwt0" }
    webRTCPeer := {} }

/-- Sample well-formed broadcast options with bandwidth restriction. -/
def optsFull : BroadcastOptions :=
  { publisherData := some { urls := ["wss://live", "wss://backup"], jwt := "jwt123" }
    mediaStream := some { id := "cam" }
    bandwidth := some 1000
    disableVideo := false
    disableAudio := false
    codec := "h264"
    simulcast := false
    scalabilityMode := none }

/-- Sample options with publisherData absent. -/
def optsNoData : BroadcastOptions :=
  { optsFull with publisherData := none }

end Millicast

namespace Millicast

/-- Claim C4: isActive returns the boolean comparison of the polled peer
status with the string "connected": true exactly when
`webRTCPeer.getRTCPeerStatus()` is "connected", false for every other
status including an absent peer.  The source method only reads the
collaborator, hence its embedding is a pure function that leaves the
publisher untouched. -/
theorem isActive_iff_connected (env : Env) (pub : Publisher) :
    (isActive env pub = true ↔ env.rtcPeerStatus = some "connected")
    ∧ (isActive env pub = false ↔ env.rtcPeerStatus ≠ some "connected") := by
  constructor
  · simp [isActive]
  · simp [isActive]

/-- Witness for C4: the connected sample environment reports active. -/
theorem isActive_iff_connected_witness :
    isActive envConnected pubSample = true :=
  ((isActive_iff_connected envConnected pubSample).1).mpr rfl

/-- Claim C7: for every publisher state, stop closes the RTC peer, closes
the signaling collaborator whenever one exists, and nulls the
millicastSignaling field. -/
theorem stop_closes_everything (pub : Publisher) :
    Event.closeRTCPeer ∈ (stop pub).2
    ∧ (∀ s, pub.millicastSignaling = some s → Event.signalingClose ∈ (stop pub).2)
    ∧ (stop pub).1.millicastSignaling = none := by
  refine ⟨?_, ?_, rfl⟩
  · simp [stop]
  · intro s hs
    simp [stop, hs]

/-- Witness for C7 at a publisher that holds a signaling connection. -/
theorem stop_closes_everything_witness :
    Event.signalingClose ∈ (stop pubWithSignaling).2 :=
  (stop_closes_everything pubWithSignaling).2.1
    { streamName := "myStream", url := "wss://dir?token=jwt0" } rfl

/-- Claim C9: stop is total (the embedding is a function: the source
guards the only nullable receiver with optional chaining) and idempotent
on the publisher state: one call nulls millicastSignaling and a second
call leaves the state exactly where the first left it. -/
theorem stop_idempotent (pub : Publisher) :
    (stop pub).1.millicastSignaling = none
    ∧ (stop (stop pub).1).1 = (stop pub).1
    ∧ (stop (stop pub).1).2 = [Event.closeRTCPeer] :=
  ⟨rfl, rfl, rfl⟩

/-- Witness for C9 on a publisher holding a signaling connection. -/
theorem stop_idempotent_witness :
    (stop pubWithSignaling).1.millicastSignaling = none
    ∧ (stop (stop pubWithSignaling).1).1 = (stop pubWithSignaling).1 :=
  ⟨(stop_idempotent pubWithSignaling).1, (stop_idempotent pubWithSignaling).2.1⟩

/-- Claim C8: the constructor throws exactly on a falsy stream name
(undefined, null or the empty string) with the message the source logs,
and on a truthy stream name builds a publisher whose streamName is the
argument, whose millicastSignaling is null and whose webRTCPeer is a
fresh MillicastWebRTC value. -/
theorem construct_spec (s : Option String) :
    (jsTruthyStr s = false →
      newMillicastPublish s = .error "Stream Name is required to construct a publisher.")
    ∧ (∀ t, s = some t → t ≠ "" →
      newMillicastPublish s =
        .ok { streamName := t, millicastSignaling := none, webRTCPeer := {} }) := by
  constructor
  · intro h
    simp [newMillicastPublish, h]
  · intro t hs ht
    subst hs
    simp [newMillicastPublish, jsTruthyStr, ht]

/-- Witness for C8: a concrete truthy name constructs the expected
publisher, and the empty string is rejected. -/
theorem construct_spec_witness :
    newMillicastPublish (some "abc") =
      .ok { streamName := "abc", millicastSignaling := none, webRTCPeer := {} }
    ∧ newMillicastPublish (some "") =
      .error "Stream Name is required to construct a publisher." :=
  ⟨(construct_spec (some "abc")).2 "abc" rfl (by decide),
   (construct_spec (some "")).1 (by decide)⟩

/-- Helper: the full behaviour of `broadcast` once the three validation
checks pass, spelled out as the literal result triple. -/
theorem broadcast_validated (env : Env) (pub : Publisher) (opts : BroadcastOptions)
    (pd : PublisherData) (ms : MediaStream)
    (h1 : opts.publisherData = some pd) (h2 : opts.mediaStream = some ms)
    (h3 : isActive env pub = false) :
    broadcast env pub opts =
      (.ok (),
       { pub with millicastSignaling := some ⟨pub.streamName, jsHead pd.urls ++ "?token=" ++ pd.jwt⟩ },
       [Event.newSignaling pub.streamName (jsHead pd.urls ++ "?token=" ++ pd.jwt),
        Event.getRTCPeer,
        Event.reemit,
        Event.setRTCOfferOptions (!opts.disableVideo) (!opts.disableAudio),
        Event.getRTCLocalSDP ms opts.simulcast opts.codec opts.scalabilityMode,
        Event.signalingPublish
          (env.localSDP ms opts.simulcast opts.codec opts.scalabilityMode) opts.codec]
       ++ (if (!opts.disableVideo && jsGtZero opts.bandwidth) = true then
            [Event.updateBandwidthRestriction
              (env.signalingAnswer
                (env.localSDP ms opts.simulcast opts.codec opts.scalabilityMode) opts.codec)
              (opts.bandwidth.getD 0)]
           else [])
       ++ [Event.setRTCRemoteSDP
            (if (!opts.disableVideo && jsGtZero opts.bandwidth) = true then
              env.updateBandwidthRestriction
                (env.signalingAnswer
                  (env.localSDP ms opts.simulcast opts.codec opts.scalabilityMode) opts.codec)
                (opts.bandwidth.getD 0)
             else
              env.signalingAnswer
                (env.localSDP ms opts.simulcast opts.codec opts.scalabilityMode) opts.codec)]) := by
  simp [broadcast, h1, h2, h3]

/-- Claim C1: every successful broadcast performs its collaborator calls
in the fixed order: create signaling, obtain the peer, re-emit its
events, set the offer options, get the local offer, publish it to
signaling, optionally rewrite the bandwidth, and finally hand the answer
to setRTCRemoteSDP; validation precedes all of them and no step occurs
out of this order. -/
theorem broadcast_step_order (env : Env) (pub : Publisher) (opts : BroadcastOptions)
    (h : (broadcast env pub opts).1 = Except.ok ()) :
    (broadcast env pub opts).2.2.map Event.stepName =
      ["newSignaling", "getRTCPeer", "reemit", "setRTCOfferOptions",
       "getRTCLocalSDP", "signalingPublish"]
      ++ (if (!opts.disableVideo && jsGtZero opts.bandwidth) = true then
            ["updateBandwidthRestriction"] else [])
      ++ ["setRTCRemoteSDP"] := by
  cases hpd : opts.publisherData with
  | none => simp [broadcast, hpd] at h
  | some pd =>
    cases hms : opts.mediaStream with
    | none => simp [broadcast, hpd, hms] at h
    | some ms =>
      cases hact : isActive env pub with
      | true => simp [broadcast, hpd, hms, hact] at h
      | false =>
        rw [broadcast_validated env pub opts pd ms hpd hms hact]
        cases hr : (!opts.disableVideo && jsGtZero opts.bandwidth) <;>
          simp [Event.stepName, hr]

/-- Witness for C1: on a concrete successful broadcast with bandwidth
restriction, the trace has exactly the claimed step order. -/
theorem broadcast_step_order_witness :
    (broadcast envIdle pubSample optsFull).2.2.map Event.stepName =
      ["newSignaling", "getRTCPeer", "reemit", "setRTCOfferOptions",
       "getRTCLocalSDP", "signalingPublish", "updateBandwidthRestriction",
       "setRTCRemoteSDP"] := by
  have h := broadcast_step_order envIdle pubSample optsFull rfl
  simpa [optsFull, jsGtZero] using h

/-- Claim C5: broadcast validates before any collaborator interaction:
whenever publisherData is missing, mediaStream is missing, or a broadcast
is already active, it throws with an empty trace (so no offer was created
and no connection opened) and returns the publisher unchanged, in
particular with its millicastSignaling field untouched. -/
theorem broadcast_validation_atomic (env : Env) (pub : Publisher) (opts : BroadcastOptions)
    (h : opts.publisherData = none ∨ opts.mediaStream = none ∨ isActive env pub = true) :
    (∃ msg, (broadcast env pub opts).1 = Except.error msg)
    ∧ (broadcast env pub opts).2.1 = pub
    ∧ (broadcast env pub opts).2.2 = [] := by
  cases hpd : opts.publisherData with
  | none => exact ⟨⟨"Publisher data required", by simp [broadcast, hpd]⟩,
      by simp [broadcast, hpd], by simp [broadcast, hpd]⟩
  | some pd =>
    cases hms : opts.mediaStream with
    | none => exact ⟨⟨"MediaStream required", by simp [broadcast, hpd, hms]⟩,
        by simp [broadcast, hpd, hms], by simp [broadcast, hpd, hms]⟩
    | some ms =>
      cases hact : isActive env pub with
      | true => exact ⟨⟨"Broadcast currently working", by simp [broadcast, hpd, hms, hact]⟩,
          by simp [broadcast, hpd, hms, hact], by simp [broadcast, hpd, hms, hact]⟩
      | false => simp_all

/-- Witness for C5 at a missing publisherData on a concrete publisher. -/
theorem broadcast_validation_atomic_witness :
    (∃ msg, (broadcast envIdle pubSample optsNoData).1 = Except.error msg)
    ∧ (broadcast envIdle pubSample optsNoData).2.1 = pubSample
    ∧ (broadcast envIdle pubSample optsNoData).2.2 = [] :=
  broadcast_validation_atomic envIdle pubSample optsNoData (Or.inl rfl)

/-- Counterexample for C3 as stated: a publisher whose isActive() is true,
called with options lacking publisherData, throws the validation error
"Publisher data required", not "Broadcast currently working". -/
theorem broadcast_active_message_cex :
    isActive envConnected pubSample = true
    ∧ (broadcast envConnected pubSample optsNoData).1 = Except.error "Publisher data required"
    ∧ (broadcast envConnected pubSample optsNoData).1
        ≠ Except.error "Broadcast currently working" := by
  refine ⟨rfl, rfl, fun h => ?_⟩
  rw [show (broadcast envConnected pubSample optsNoData).1
      = Except.error "Publisher data required" from rfl] at h
  injection h with h'
  exact absurd h' (by decide)

/-- Claim C3 amended: a publisher whose isActive() is true starts no new
session on any broadcast call: the call throws some error, leaves the
publisher unchanged and makes no collaborator call; when publisherData
and mediaStream are both present, the thrown message is the guard message
"Broadcast currently working" (with either of them missing, the earlier
validation message is thrown instead). -/
theorem broadcast_active_throws (env : Env) (pub : Publisher) (opts : BroadcastOptions)
    (h : isActive env pub = true) :
    (∃ msg, (broadcast env pub opts).1 = Except.error msg)
    ∧ (broadcast env pub opts).2.1 = pub
    ∧ (broadcast env pub opts).2.2 = []
    ∧ (∀ pd ms, opts.publisherData = some pd → opts.mediaStream = some ms →
        (broadcast env pub opts).1 = Except.error "Broadcast currently working") := by
  refine ⟨?_, ?_, ?_, ?_⟩
  · exact (broadcast_validation_atomic env pub opts (Or.inr (Or.inr h))).1
  · exact (broadcast_validation_atomic env pub opts (Or.inr (Or.inr h))).2.1
  · exact (broadcast_validation_atomic env pub opts (Or.inr (Or.inr h))).2.2
  · intro pd ms hpd hms
    simp [broadcast, hpd, hms, h]

/-- Witness for C3 amended: a connected publisher with complete options
throws exactly the guard message. -/
theorem broadcast_active_throws_witness :
    (broadcast envConnected pubSample optsFull).1
      = Except.error "Broadcast currently working" :=
  (broadcast_active_throws envConnected pubSample optsFull rfl).2.2.2 _ _ rfl rfl

/-- Claim C2: on a validated broadcast, the answer is rewritten through
updateBandwidthRestriction exactly when disableVideo is false and the
bandwidth is a number greater than 0; in every other combination (video
disabled, bandwidth 0 or negative, bandwidth absent) no bandwidth
rewriting happens and setRTCRemoteSDP receives exactly the string
returned by millicastSignaling.publish. -/
theorem broadcast_bandwidth_iff (env : Env) (pub : Publisher) (opts : BroadcastOptions)
    (pd : PublisherData) (ms : MediaStream)
    (h1 : opts.publisherData = some pd) (h2 : opts.mediaStream = some ms)
    (h3 : isActive env pub = false) :
    (opts.disableVideo = false → jsGtZero opts.bandwidth = true →
      ∀ s, Event.setRTCRemoteSDP s ∈ (broadcast env pub opts).2.2 ↔
        s = env.updateBandwidthRestriction
              (env.signalingAnswer
                (env.localSDP ms opts.simulcast opts.codec opts.scalabilityMode) opts.codec)
              (opts.bandwidth.getD 0))
    ∧ (opts.disableVideo = true ∨ jsGtZero opts.bandwidth = false →
        (∀ s, Event.setRTCRemoteSDP s ∈ (broadcast env pub opts).2.2 ↔
          s = env.signalingAnswer
                (env.localSDP ms opts.simulcast opts.codec opts.scalabilityMode) opts.codec)
        ∧ ∀ s b, Event.updateBandwidthRestriction s b ∉ (broadcast env pub opts).2.2) := by
  rw [broadcast_validated env pub opts pd ms h1 h2 h3]
  constructor
  · intro hv hb s
    simp [hv, hb]
  · intro hvb
    rcases hvb with hv | hb
    · simp [hv]
    · simp [hb]

/-- Witness for C2: a concrete broadcast with bandwidth 1000 hands the
rewritten answer to setRTCRemoteSDP. -/
theorem broadcast_bandwidth_iff_witness :
    Event.setRTCRemoteSDP "answer:offer:cam:h264false:h264;b=AS:1000"
      ∈ (broadcast envIdle pubSample optsFull).2.2 := by
  have h := (broadcast_bandwidth_iff envIdle pubSample optsFull _ _ rfl rfl rfl).1 rfl rfl
  exact (h _).mpr rfl

/-- Claim C6: the only SDP reshaping the publisher performs is the single
bandwidth substitution: the local offer reaches millicastSignaling.publish
exactly as getRTCLocalSDP produced it, and every string handed to
setRTCRemoteSDP is the signaling answer itself or that answer through the
one updateBandwidthRestriction call, which is only ever applied to the
answer. -/
theorem broadcast_sdp_frame (env : Env) (pub : Publisher) (opts : BroadcastOptions)
    (pd : PublisherData) (ms : MediaStream)
    (h1 : opts.publisherData = some pd) (h2 : opts.mediaStream = some ms)
    (h3 : isActive env pub = false) :
    Event.signalingPublish
        (env.localSDP ms opts.simulcast opts.codec opts.scalabilityMode) opts.codec
      ∈ (broadcast env pub opts).2.2
    ∧ (∀ s c, Event.signalingPublish s c ∈ (broadcast env pub opts).2.2 →
        s = env.localSDP ms opts.simulcast opts.codec opts.scalabilityMode)
    ∧ (∀ s, Event.setRTCRemoteSDP s ∈ (broadcast env pub opts).2.2 →
        s = env.signalingAnswer
              (env.localSDP ms opts.simulcast opts.codec opts.scalabilityMode) opts.codec
        ∨ s = env.updateBandwidthRestriction
                (env.signalingAnswer
                  (env.localSDP ms opts.simulcast opts.codec opts.scalabilityMode) opts.codec)
                (opts.bandwidth.getD 0))
    ∧ (∀ s b, Event.updateBandwidthRestriction s b ∈ (broadcast env pub opts).2.2 →
        s = env.signalingAnswer
              (env.localSDP ms opts.simulcast opts.codec opts.scalabilityMode) opts.codec) := by
  rw [broadcast_validated env pub opts pd ms h1 h2 h3]
  refine ⟨by simp, ?_, ?_, ?_⟩
  · intro s c hs
    cases hr : (!opts.disableVideo && jsGtZero opts.bandwidth) <;>
      simp [hr] at hs <;> exact hs.1
  · intro s hs
    cases hr : (!opts.disableVideo && jsGtZero opts.bandwidth) <;>
      simp [hr] at hs
    · exact Or.inl hs
    · exact Or.inr hs
  · intro s b hs
    cases hr : (!opts.disableVideo && jsGtZero opts.bandwidth) <;>
      simp [hr] at hs
    exact hs.1

/-- Witness for C6: on a concrete broadcast, the offer produced by the
local-SDP oracle is the exact string published to signaling. -/
theorem broadcast_sdp_frame_witness :
    Event.signalingPublish "offer:cam:h264false" "h264"
      ∈ (broadcast envIdle pubSample optsFull).2.2 := by
  have h := (broadcast_sdp_frame envIdle pubSample optsFull _ _ rfl rfl rfl).1
  exact h

/-- Claim C10: on a validated broadcast the signaling endpoint url is
built exclusively from the first element of publisherData.urls with the
jwt appended as a token query parameter; the remaining urls never appear
and every newSignaling call carries exactly this url, so there is no
fallback among them. -/
theorem broadcast_url_from_first (env : Env) (pub : Publisher) (opts : BroadcastOptions)
    (pd : PublisherData) (ms : MediaStream) (u : String) (rest : List String)
    (h1 : opts.publisherData = some pd) (h2 : opts.mediaStream = some ms)
    (h3 : isActive env pub = false) (hu : pd.urls = u :: rest) :
    (broadcast env pub opts).2.1.millicastSignaling =
      some { streamName := pub.streamName, url := u ++ "?token=" ++ pd.jwt }
    ∧ Event.newSignaling pub.streamName (u ++ "?token=" ++ pd.jwt)
        ∈ (broadcast env pub opts).2.2
    ∧ (∀ sn url, Event.newSignaling sn url ∈ (broadcast env pub opts).2.2 →
        url = u ++ "?token=" ++ pd.jwt) := by
  rw [broadcast_validated env pub opts pd ms h1 h2 h3]
  refine ⟨by simp [jsHead, hu], by simp [jsHead, hu], ?_⟩
  intro sn url hmem
  cases hr : (!opts.disableVideo && jsGtZero opts.bandwidth) <;>
    simp [hr, jsHead, hu] at hmem <;> exact hmem.2

/-- Witness for C10: with two connection paths, the stored signaling url
comes from the first one only. -/
theorem broadcast_url_from_first_witness :
    (broadcast envIdle pubSample optsFull).2.1.millicastSignaling =
      some { streamName := "myStream", url := "wss://live?token=jwt123" } := by
  have h := (broadcast_url_from_first envIdle pubSample optsFull _ _
    "wss://live" ["wss://backup"] rfl rfl rfl rfl).1
  exact h

end Millicast
